import Mathlib

/-!
Verification of the script-execution bridge (`app/api_server.py`) and the
standalone script executor (`app/script_executor.py`).

The Python code is shallowly embedded as pure Lean functions over an explicit
model of the outside world:

* `World` supplies the behaviour of the filesystem-existence check
  (`Path(p).exists()`) and of `subprocess.run([sys.executable, p], ...)`:
  either the child completes with an exit code and its two captured text
  streams, or the spawn/wait itself faults (modelling an arbitrary Python
  exception raised by `subprocess.run`).
* Python functions that may raise are embedded with result type
  `Except PyExc _`: `Except.error e` means the exception `e` escapes the
  function, `Except.ok v` means the function returns `v` normally.
  `try`/`except` blocks are embedded by matching on the `Except` value of the
  embedded `try` body.
* The endpoints additionally thread an `FS` state recording an event trace of
  temporary-directory creation/removal, file writes and executor invocations,
  so that resource-leak and "happens before return" properties are statable.
  `tempfile.TemporaryDirectory()` used as a `with` context manager removes the
  directory when the scope is exited on every path, including exception
  propagation; the embedding of each endpoint appends the `rmdir` event after
  the body on all branches, mirroring exactly that construct.
* Filesystem paths are modelled as segment lists; `pathlib`'s `/` operator on
  a relative right operand appends the right operand's segments, and replaces
  the whole path when the right operand is absolute.  `resolvePath` models the
  operating-system resolution of `.` and `..` segments performed when the path
  is opened.
-/

/-- Captured outcome of a completed child process: integer exit status plus
the two independently captured text streams. -/
structure ProcResult where
  returncode : Int
  stdout : String
  stderr : String
  deriving DecidableEq, Repr

/-- Behaviour of `subprocess.run`: the child completes, or spawning/waiting
faults with a Python exception whose string form is `msg`. -/
inductive SpawnOutcome where
  | completed (r : ProcResult)
  | fault (msg : String)
  deriving DecidableEq, Repr

/-- The ambient world an executor call runs against: path existence and
child-process behaviour. -/
structure World where
  pathExists : String → Bool
  spawn : String → SpawnOutcome

/-- Python exceptions relevant to this program. -/
inductive PyExc where
  | fileNotFound (msg : String)
  | calledProcessError (returncode : Int) (stderr : String)
  | httpException (status : Nat) (detail : String)
  | other (msg : String)
  deriving DecidableEq, Repr

/-- `str(e)` for the exceptions the handlers stringify.  Only the
constructors actually stringified by the source are given meaningful text. -/
def PyExc.message : PyExc → String
  | .fileNotFound m => m
  | .calledProcessError rc _ =>
      "Command returned non-zero exit status " ++ toString rc ++ "."
  | .httpException _ d => d
  | .other m => m

/-- The service ExecutionResponse pydantic model of `app/api_server.py`:
`success : bool`, `output : Optional[str] = None`, `error : Optional[str] = None`. -/
structure ExecutionResponse where
  success : Bool
  output : Option String := none
  error : Option String := none
  deriving DecidableEq, Repr

/-- The `try` block of `execute_script` in `app/api_server.py`: missing path
returns a failure response (no raise); a completed child is classified by
`returncode == 0` into success-with-stdout or failure-with-stderr; a fault
during spawn/wait escapes as an exception. -/
def api_server.executeScriptTry (w : World) (script_path : String) :
    Except PyExc ExecutionResponse :=
  if !(w.pathExists script_path) then
    Except.ok { success := false
                error := some ("Script not found: " ++ script_path) }
  else
    match w.spawn script_path with
    | SpawnOutcome.completed result =>
        if result.returncode = 0 then
          Except.ok { success := true, output := some result.stdout }
        else
          Except.ok { success := false, error := some result.stderr }
    | SpawnOutcome.fault msg => Except.error (PyExc.other msg)

/-- `execute_script` of `app/api_server.py`: the `try` body wrapped in
`except Exception as e`, which converts any escaping exception into a
failure response carrying `str(e)`. -/
def api_server.execute_script (w : World) (script_path : String) :
    Except PyExc ExecutionResponse :=
  match api_server.executeScriptTry w script_path with
  | Except.ok r => Except.ok r
  | Except.error e =>
      Except.ok { success := false, error := some (PyExc.message e) }

/-- The `try` block of `execute_script` in `app/script_executor.py`: missing
path raises `FileNotFoundError`; `subprocess.run(..., check=True)` raises
`CalledProcessError` on a non-zero exit; a zero exit returns `result.stdout`. -/
def script_executor.executeScriptTry (w : World) (script_path : String) :
    Except PyExc String :=
  if !(w.pathExists script_path) then
    Except.error (PyExc.fileNotFound ("Script not found: " ++ script_path))
  else
    match w.spawn script_path with
    | SpawnOutcome.completed result =>
        if result.returncode = 0 then
          Except.ok result.stdout
        else
          Except.error (PyExc.calledProcessError result.returncode result.stderr)
    | SpawnOutcome.fault msg => Except.error (PyExc.other msg)

/-- `execute_script` of `app/script_executor.py`: the `try` body with the
three handlers `except FileNotFoundError`, `except subprocess.CalledProcessError`
and `except Exception`, every one of which returns `None`. -/
def script_executor.execute_script (w : World) (script_path : String) :
    Except PyExc (Option String) :=
  match script_executor.executeScriptTry w script_path with
  | Except.ok s => Except.ok (some s)
  | Except.error (PyExc.fileNotFound _) => Except.ok none
  | Except.error (PyExc.calledProcessError _ _) => Except.ok none
  | Except.error _ => Except.ok none

/-- Python's `s.endswith(suffix)`: case-sensitive exact suffix match. -/
def pyEndsWith (s suffix : String) : Bool :=
  suffix.data.isSuffixOf s.data

/-- Split a character list at `/` separators. -/
def splitSegsAux (cs : List Char) (cur : List Char) : List (List Char) :=
  match cs with
  | [] => [cur.reverse]
  | c :: rest =>
      if c = '/' then cur.reverse :: splitSegsAux rest []
      else splitSegsAux rest (c :: cur)

/-- A filesystem path as its list of non-empty segments. -/
def splitPath (s : String) : List String :=
  ((splitSegsAux s.data []).map (fun cs => String.mk cs)).filter
    (fun seg => seg ≠ "")

/-- `Path(base) / name` of `pathlib`: an absolute `name` replaces the base,
a relative `name` has its segments appended to the base. -/
def pathJoin (base : List String) (name : String) : List String :=
  if "/".data.isPrefixOf name.data then splitPath name
  else base ++ splitPath name

/-- Operating-system resolution of `.` and `..` segments, as performed when
the path is opened. -/
def resolvePath (p : List String) : List String :=
  p.foldl
    (fun acc seg =>
      if seg = ".." then acc.dropLast
      else if seg = "." then acc
      else acc ++ [seg]) []

/-- Whether `p` lies inside the directory `base` (segment-wise). -/
def dirContains : List String → List String → Bool
  | [], _ => true
  | _ :: _, [] => false
  | a :: as, b :: bs => a = b && dirContains as bs

/-- Render a segment-list path as the string handed to the executor
(`str(temp_path)`). -/
def pathToString (p : List String) : String :=
  "/" ++ String.intercalate "/" p

/-- Observable filesystem events of one request. -/
inductive Event where
  | mkdir (d : List String)
  | rmdir (d : List String)
  | writeFile (p : List String)
  | execCall (p : String)
  deriving DecidableEq, Repr

/-- Filesystem state threaded through an endpoint: the event trace so far and
the counter from which the next fresh temporary-directory name is drawn
(`tempfile.TemporaryDirectory()` allocates a fresh, non-colliding directory
on each call). -/
structure FS where
  trace : List Event
  nextId : Nat
  deriving DecidableEq, Repr

/-- Path of the `n`-th temporary directory allocated by `tempfile`. -/
def tmpDirPath (n : Nat) : List String :=
  ["tmp", "tmp" ++ toString n]

/-- Ambient behaviour of one bridge request: the executor's world, plus
whether the staging write (`open(temp_path, ...)` / `f.write(...)`) and, for
the upload endpoint, `await script.read()` fault.  `some msg` means that
operation raises an exception with string form `msg`. -/
structure BridgeWorld where
  exec : World
  writeFault : Option String := none
  readFault : Option String := none

/-- `execute_code_endpoint` of `app/api_server.py` (`POST /execute`):
inside `with tempfile.TemporaryDirectory()`, write the code to
`temp_dir/script.py` (a failed write is caught and re-raised as
`HTTPException(500, "Failed to process code")`), then run the executor on
that path; the directory-removal event is appended after the body on every
branch, exactly as the `with` context manager guarantees. -/
def api_server.execute_code_endpoint (bw : BridgeWorld) (code : String)
    (fs : FS) : Except PyExc ExecutionResponse × FS :=
  let d := tmpDirPath fs.nextId
  let fs1 : FS := ⟨fs.trace ++ [Event.mkdir d], fs.nextId + 1⟩
  let temp_path := pathJoin d "script.py"
  let body : Except PyExc ExecutionResponse × FS :=
    match bw.writeFault with
    | some _ =>
        (Except.error (PyExc.httpException 500 "Failed to process code"), fs1)
    | none =>
        let fs2 : FS := ⟨fs1.trace ++ [Event.writeFile temp_path], fs1.nextId⟩
        let fs3 : FS :=
          ⟨fs2.trace ++ [Event.execCall (pathToString temp_path)], fs2.nextId⟩
        (api_server.execute_script bw.exec (pathToString temp_path), fs3)
  (body.1, ⟨body.2.trace ++ [Event.rmdir d], body.2.nextId⟩)

/-- `execute_file_endpoint` of `app/api_server.py` (`POST /execute-file`):
a filename not ending in `.py` is rejected with
`HTTPException(400, "Only Python files (.py) are allowed")` before any
temporary resource exists; otherwise, inside
`with tempfile.TemporaryDirectory()`, the upload is read and written to
`Path(temp_dir) / script.filename` (a fault in either is caught and re-raised
as `HTTPException(500, "Failed to process uploaded file")`), then the
executor runs on that path; directory removal is appended after the body on
every branch. -/
def api_server.execute_file_endpoint (bw : BridgeWorld) (filename : String)
    (fs : FS) : Except PyExc ExecutionResponse × FS :=
  if !(pyEndsWith filename ".py") then
    (Except.error (PyExc.httpException 400 "Only Python files (.py) are allowed"),
     fs)
  else
    let d := tmpDirPath fs.nextId
    let fs1 : FS := ⟨fs.trace ++ [Event.mkdir d], fs.nextId + 1⟩
    let temp_path := pathJoin d filename
    let body : Except PyExc ExecutionResponse × FS :=
      match bw.readFault, bw.writeFault with
      | some _, _ =>
          (Except.error
            (PyExc.httpException 500 "Failed to process uploaded file"), fs1)
      | none, some _ =>
          (Except.error
            (PyExc.httpException 500 "Failed to process uploaded file"), fs1)
      | none, none =>
          let fs2 : FS := ⟨fs1.trace ++ [Event.writeFile temp_path], fs1.nextId⟩
          let fs3 : FS :=
            ⟨fs2.trace ++ [Event.execCall (pathToString temp_path)], fs2.nextId⟩
          (api_server.execute_script bw.exec (pathToString temp_path), fs3)
    (body.1, ⟨body.2.trace ++ [Event.rmdir d], body.2.nextId⟩)

/-- Fold step computing the set of currently existing temporary directories
from an event trace. -/
def openStep (acc : List (List String)) : Event → List (List String)
  | Event.mkdir d => d :: acc
  | Event.rmdir d => acc.erase d
  | _ => acc

/-- Temporary directories created and not yet removed by a trace. -/
def openDirs (t : List Event) : List (List String) :=
  t.foldl openStep []

/-- A world in which every path exists and the child exits 0 printing `out`. -/
def wOk : World :=
  ⟨fun _ => true, fun _ => SpawnOutcome.completed ⟨0, "out", ""⟩⟩

/-- A world in which every path exists and the child exits 1 with stderr `err`. -/
def wFail : World :=
  ⟨fun _ => true, fun _ => SpawnOutcome.completed ⟨1, "out", "err"⟩⟩

/-- A world in which no path exists. -/
def wMissing : World :=
  ⟨fun _ => false, fun _ => SpawnOutcome.completed ⟨0, "", ""⟩⟩

/-- A world in which every path exists but spawning the child faults. -/
def wFault : World :=
  ⟨fun _ => true, fun _ => SpawnOutcome.fault "boom"⟩

/-- A bridge world with no staging faults over `wOk`. -/
def bw0 : BridgeWorld := { exec := wOk }

/-- A bridge world whose staging write faults. -/
def bwWriteFault : BridgeWorld := { exec := wOk, writeFault := some "disk full" }

/-- The success response produced in the world `wOk`. -/
def rOk : ExecutionResponse := ⟨true, some "out", none⟩

/-- Exhaustive description of the service executor's result: it always
returns normally, with one of the three response shapes of the source. -/
theorem api_execute_script_shape (w : World) (p : String) :
    (w.pathExists p = false ∧
      api_server.execute_script w p =
        Except.ok ⟨false, none, some ("Script not found: " ++ p)⟩) ∨
    (∃ r, w.pathExists p = true ∧ w.spawn p = SpawnOutcome.completed r ∧
      ((r.returncode = 0 ∧
          api_server.execute_script w p = Except.ok ⟨true, some r.stdout, none⟩) ∨
       (¬ r.returncode = 0 ∧
          api_server.execute_script w p = Except.ok ⟨false, none, some r.stderr⟩))) ∨
    (∃ m, w.pathExists p = true ∧ w.spawn p = SpawnOutcome.fault m ∧
      api_server.execute_script w p = Except.ok ⟨false, none, some m⟩) := by
  cases hpe : w.pathExists p with
  | false =>
      exact Or.inl ⟨rfl, by
        unfold api_server.execute_script api_server.executeScriptTry
        simp [hpe]⟩
  | true =>
      cases hsp : w.spawn p with
      | completed r =>
          refine Or.inr (Or.inl ⟨r, rfl, rfl, ?_⟩)
          by_cases hrc : r.returncode = 0
          · exact Or.inl ⟨hrc, by
              unfold api_server.execute_script api_server.executeScriptTry
              simp [hpe, hsp, hrc]⟩
          · exact Or.inr ⟨hrc, by
              unfold api_server.execute_script api_server.executeScriptTry
              simp [hpe, hsp, hrc]⟩
      | fault m =>
          refine Or.inr (Or.inr ⟨m, rfl, rfl, ?_⟩)
          unfold api_server.execute_script api_server.executeScriptTry
          simp [hpe, hsp, PyExc.message]

/-- The standalone executor always returns normally: each of its three
handlers returns `None`. -/
theorem standalone_execute_script_total (w : World) (p : String) :
    ∃ v, script_executor.execute_script w p = Except.ok v := by
  rcases h : script_executor.executeScriptTry w p with e | s
  · cases e <;> exact ⟨none, by simp [script_executor.execute_script, h]⟩
  · exact ⟨some s, by simp [script_executor.execute_script, h]⟩

/-- The service executor always returns normally. -/
theorem api_execute_script_total (w : World) (p : String) :
    ∃ r, api_server.execute_script w p = Except.ok r := by
  rcases api_execute_script_shape w p with ⟨_, he⟩ |
    ⟨r, _, _, ⟨_, he⟩ | ⟨_, he⟩⟩ | ⟨m, _, _, he⟩ <;> exact ⟨_, he⟩

/-- C1: for every `/execute` and `/execute-file` invocation, on every exit
path (success, failed response, staging failure raising an HTTP error, or an
exception propagating out of the request scope), the set of live temporary
directories after the call equals the set before it, and for `/execute` the
removal of the request's directory is on the trace before the call returns. -/
theorem c1_no_tempdir_leak (bw : BridgeWorld) (code filename : String)
    (fs : FS) :
    openDirs (api_server.execute_code_endpoint bw code fs).2.trace =
      openDirs fs.trace ∧
    Event.rmdir (tmpDirPath fs.nextId) ∈
      (api_server.execute_code_endpoint bw code fs).2.trace ∧
    openDirs (api_server.execute_file_endpoint bw filename fs).2.trace =
      openDirs fs.trace := by
  refine ⟨?_, ?_, ?_⟩
  · unfold api_server.execute_code_endpoint
    cases bw.writeFault <;>
      simp [openDirs, List.foldl_append, openStep, List.erase_cons_head]
  · unfold api_server.execute_code_endpoint
    cases bw.writeFault <;> simp
  · unfold api_server.execute_file_endpoint
    cases hf : pyEndsWith filename ".py"
    · simp
    · cases bw.readFault <;> cases bw.writeFault <;>
        simp [openDirs, List.foldl_append, openStep, List.erase_cons_head]

/-- C2: every response the service executor returns has exactly one of
`output`/`error` populated, determined by `success`. -/
theorem c2_exactly_one_of_output_error (w : World) (p : String)
    (r : ExecutionResponse)
    (h : api_server.execute_script w p = Except.ok r) :
    (r.success = true → r.output.isSome = true ∧ r.error = none) ∧
    (r.success = false → r.error.isSome = true ∧ r.output = none) := by
  rcases api_execute_script_shape w p with ⟨_, he⟩ |
    ⟨pr, _, _, ⟨_, he⟩ | ⟨_, he⟩⟩ | ⟨m, _, _, he⟩ <;>
    (rw [he] at h; simp only [Except.ok.injEq] at h; subst h; simp)

/-- Witness for C2 at the concrete world `wOk`. -/
theorem c2_witness :
    (rOk.success = true → rOk.output.isSome = true ∧ rOk.error = none) ∧
    (rOk.success = false → rOk.error.isSome = true ∧ rOk.output = none) :=
  c2_exactly_one_of_output_error wOk "/tmp/x.py" rOk rfl

/-- C3: when the path exists and the child terminates, exit code 0 yields a
success carrying exactly the captured stdout (stderr discarded), and any
non-zero exit yields a failure carrying exactly the captured stderr (stdout
discarded). -/
theorem c3_exit_code_classification (w : World) (p : String) (r : ProcResult)
    (hp : w.pathExists p = true)
    (hs : w.spawn p = SpawnOutcome.completed r) :
    (r.returncode = 0 →
      api_server.execute_script w p = Except.ok ⟨true, some r.stdout, none⟩) ∧
    (r.returncode ≠ 0 →
      api_server.execute_script w p = Except.ok ⟨false, none, some r.stderr⟩) := by
  unfold api_server.execute_script api_server.executeScriptTry
  constructor <;> intro hrc <;> simp [hp, hs, hrc]

/-- Witness for C3: both classifications at concrete worlds. -/
theorem c3_witness :
    api_server.execute_script wOk "/tmp/x.py" =
      Except.ok ⟨true, some "out", none⟩ ∧
    api_server.execute_script wFail "/tmp/x.py" =
      Except.ok ⟨false, none, some "err"⟩ :=
  ⟨(c3_exit_code_classification wOk "/tmp/x.py" ⟨0, "out", ""⟩ rfl rfl).1 rfl,
   (c3_exit_code_classification wFail "/tmp/x.py" ⟨1, "out", "err"⟩ rfl rfl).2
     (by decide)⟩

/-- C4: the service executor never lets an exception escape — it always
returns a response, and a fault raised while spawning/waiting is converted
into a failure response carrying the fault's description. -/
theorem c4_no_exception_escapes (w : World) (p : String) :
    (∃ r, api_server.execute_script w p = Except.ok r) ∧
    (∀ m, w.pathExists p = true → w.spawn p = SpawnOutcome.fault m →
      api_server.execute_script w p = Except.ok ⟨false, none, some m⟩) := by
  constructor
  · rcases api_execute_script_shape w p with ⟨_, he⟩ |
      ⟨pr, _, _, ⟨_, he⟩ | ⟨_, he⟩⟩ | ⟨m, _, _, he⟩ <;> exact ⟨_, he⟩
  · intro m hp hs
    unfold api_server.execute_script api_server.executeScriptTry
    simp [hp, hs, PyExc.message]

/-- Witness for C4 at a world whose spawn faults. -/
theorem c4_witness :
    api_server.execute_script wFault "/tmp/x.py" =
      Except.ok ⟨false, none, some "boom"⟩ :=
  (c4_no_exception_escapes wFault "/tmp/x.py").2 "boom" rfl rfl

/-- C5: a filename not ending in `.py` is rejected with HTTP 400, the
filesystem state is untouched (no temporary directory or file is created),
and no executor call happens. -/
theorem c5_bad_extension_rejected (bw : BridgeWorld) (filename : String)
    (fs : FS) (h : pyEndsWith filename ".py" = false) :
    api_server.execute_file_endpoint bw filename fs =
      (Except.error
        (PyExc.httpException 400 "Only Python files (.py) are allowed"), fs) := by
  unfold api_server.execute_file_endpoint
  simp [h]

/-- Witness for C5 at the concrete filename `evil.txt`. -/
theorem c5_witness :
    pyEndsWith "evil.txt" ".py" = false ∧
    api_server.execute_file_endpoint bw0 "evil.txt" ⟨[], 0⟩ =
      (Except.error
        (PyExc.httpException 400 "Only Python files (.py) are allowed"),
       ⟨[], 0⟩) :=
  ⟨by decide, c5_bad_extension_rejected bw0 "evil.txt" ⟨[], 0⟩ (by decide)⟩

/-- C6: a non-existent path yields a normal failure response — success false,
output absent, error a message containing the missing path — with no
exception escaping. -/
theorem c6_missing_path_failure (w : World) (p : String)
    (h : w.pathExists p = false) :
    api_server.execute_script w p =
      Except.ok ⟨false, none, some ("Script not found: " ++ p)⟩ ∧
    ∃ pre, "Script not found: " ++ p = pre ++ p := by
  refine ⟨?_, "Script not found: ", rfl⟩
  unfold api_server.execute_script api_server.executeScriptTry
  simp [h]

/-- Witness for C6 at a world in which no path exists. -/
theorem c6_witness :
    api_server.execute_script wMissing "/no/such.py" =
      Except.ok ⟨false, none, some ("Script not found: " ++ "/no/such.py")⟩ ∧
    ∃ pre, "Script not found: " ++ "/no/such.py" = pre ++ "/no/such.py" :=
  c6_missing_path_failure wMissing "/no/such.py" rfl

/-- C7: when the staging write of `/execute` faults, the request aborts with
`HTTPException(500, "Failed to process code")`, the temporary directory is
still created and removed, and the executor is never invoked (the only new
trace events are the directory's creation and removal). -/
theorem c7_staging_failure_is_500 (bw : BridgeWorld) (code f : String)
    (fs : FS) (h : bw.writeFault = some f) :
    api_server.execute_code_endpoint bw code fs =
      (Except.error (PyExc.httpException 500 "Failed to process code"),
       ⟨fs.trace ++ [Event.mkdir (tmpDirPath fs.nextId),
                     Event.rmdir (tmpDirPath fs.nextId)], fs.nextId + 1⟩) ∧
    ∀ q, Event.execCall q ∈ (api_server.execute_code_endpoint bw code fs).2.trace →
      Event.execCall q ∈ fs.trace := by
  constructor
  · unfold api_server.execute_code_endpoint
    simp [h]
  · intro q hq
    unfold api_server.execute_code_endpoint at hq
    simp [h, List.mem_append] at hq
    exact hq

/-- Witness for C7 at a bridge world whose staging write faults. -/
theorem c7_witness :
    api_server.execute_code_endpoint bwWriteFault "print(1)" ⟨[], 0⟩ =
      (Except.error (PyExc.httpException 500 "Failed to process code"),
       ⟨[] ++ [Event.mkdir (tmpDirPath 0), Event.rmdir (tmpDirPath 0)], 1⟩) ∧
    ∀ q, Event.execCall q ∈
        (api_server.execute_code_endpoint bwWriteFault "print(1)" ⟨[], 0⟩).2.trace →
      Event.execCall q ∈ ([] : List Event) :=
  c7_staging_failure_is_500 bwWriteFault "print(1)" "disk full" ⟨[], 0⟩ rfl

/-- C8 counterexample: on an internal fault (the spawn raises), the
standalone executor returns the value `none` normally — the exception does
not escape, contradicting the claim that this variant raises on internal
faults. -/
theorem c8_counterexample :
    script_executor.execute_script wFault "/tmp/x.py" = Except.ok none := rfl

/-- C8 (amended): the two variants differ in result shape — structured
response versus plain optional output — but both never raise: every call
returns normally, and the standalone variant converts internal faults into
the absent value. -/
theorem c8_divergent_conventions (w : World) (p : String) :
    (∃ r : ExecutionResponse, api_server.execute_script w p = Except.ok r) ∧
    (∃ v : Option String, script_executor.execute_script w p = Except.ok v) ∧
    (∀ m, w.pathExists p = true → w.spawn p = SpawnOutcome.fault m →
      script_executor.execute_script w p = Except.ok none) := by
  refine ⟨api_execute_script_total w p, standalone_execute_script_total w p, ?_⟩
  intro m hp hs
  unfold script_executor.execute_script script_executor.executeScriptTry
  simp [hp, hs]

/-- Witness for C8's amended claim at a faulting world. -/
theorem c8_witness :
    script_executor.execute_script wFault "/tmp/y.py" = Except.ok none :=
  (c8_divergent_conventions wFault "/tmp/y.py").2.2 "boom" rfl rfl

/-- C9: the filename `../evil.py` passes the extension check, and the
upload endpoint writes the upload to `temp_dir/../evil.py`, which resolves
to a path outside the request's temporary directory. -/
theorem c9_path_traversal_write :
    pyEndsWith "../evil.py" ".py" = true ∧
    Event.writeFile (pathJoin (tmpDirPath 0) "../evil.py") ∈
      (api_server.execute_file_endpoint bw0 "../evil.py" ⟨[], 0⟩).2.trace ∧
    resolvePath (pathJoin (tmpDirPath 0) "../evil.py") = ["tmp", "evil.py"] ∧
    dirContains (tmpDirPath 0)
      (resolvePath (pathJoin (tmpDirPath 0) "../evil.py")) = false := by
  refine ⟨by decide, ?_, by decide, by decide⟩
  decide

/-- C10: on the success path the variants agree — a zero exit with captured
stdout `s` yields the service success response with output `s` and the
standalone present value `s`. -/
theorem c10_success_path_agreement (w : World) (p : String) (r : ProcResult)
    (hp : w.pathExists p = true)
    (hs : w.spawn p = SpawnOutcome.completed r)
    (hrc : r.returncode = 0) :
    api_server.execute_script w p = Except.ok ⟨true, some r.stdout, none⟩ ∧
    script_executor.execute_script w p = Except.ok (some r.stdout) := by
  constructor
  · unfold api_server.execute_script api_server.executeScriptTry
    simp [hp, hs, hrc]
  · unfold script_executor.execute_script script_executor.executeScriptTry
    simp [hp, hs, hrc]

/-- Witness for C10 at the concrete world `wOk`. -/
theorem c10_witness :
    api_server.execute_script wOk "/tmp/x.py" =
      Except.ok ⟨true, some "out", none⟩ ∧
    script_executor.execute_script wOk "/tmp/x.py" = Except.ok (some "out") :=
  c10_success_path_agreement wOk "/tmp/x.py" ⟨0, "out", ""⟩ rfl rfl rfl
